import Mathlib

/-!
A shallow embedding of the `threadpool` library.

The definitions follow `src/threadpool.h` and `src/threadpool.cc`.
Every operation that the C++ code runs while holding `taskQueMtx` is one
atomic function on the state.  A call that may suspend its thread returns a
`Blocking` outcome, and what other threads do while a condition-variable wait
has released the lock is an explicit argument of the waiting function.

Machine integers are `Int`/`Nat` with explicit wrap-around:
`std::atomic_int` arithmetic wraps modulo `2^32` (`wrapInt`), `std::atomic_uint`
arithmetic is modulo `2^32`, and a comparison of a signed with an unsigned
operand first converts the signed one (`toUInt`, `toSizeT`).
-/

namespace ThreadPoolModel

/-! ## Machine integers -/

/-- Conversion of an `int` to `std::size_t` (64 bit), as the usual arithmetic
conversions do when an `int` is compared with a `size_t`. -/
def toSizeT (x : Int) : Nat := (x % 2 ^ 64).toNat

/-- Conversion of an `int` to `unsigned int` (32 bit). -/
def toUInt (x : Int) : Nat := (x % 2 ^ 32).toNat

/-- Two's-complement wrap of a value into the range of a 32 bit `int`, the
result of `++` and `--` on a `std::atomic_int`. -/
def wrapInt (x : Int) : Int := (x + 2 ^ 31) % 2 ^ 32 - 2 ^ 31

/-! ## `Any` (threadpool.h, lines 15-62) -/

/-- The C++ types an `Any` may be instantiated with: `const char*` (the type of
the literal that `Result::get` returns for an invalid result) and any further
type `u` of a caller-chosen family `U`. -/
inductive TypeTag (U : Type) where
  | constCharPtr : TypeTag U
  | other (u : U) : TypeTag U
  deriving DecidableEq

/-- The values of the C++ type named by a tag; `d` interprets the caller's types. -/
def TypeTag.den {U : Type} (d : U → Type) : TypeTag U → Type
  | TypeTag.constCharPtr => String
  | TypeTag.other u => d u

/-- `class Any`: the only member is `std::unique_ptr<Base> base_`.  It is either
null or owns a `Derive<T>` object, that is a type `T` together with `data_ : T`. -/
structure Any (U : Type) (d : U → Type) where
  base_ : Option ((t : TypeTag U) × t.den d)

/-- `Any() = default`: `base_` is null. -/
def Any.empty {U : Type} {d : U → Type} : Any U d := ⟨none⟩

/-- `template<typename T> Any(T data) : base_(new Derive<T>(data))`. -/
def Any.of {U : Type} {d : U → Type} (T : TypeTag U) (data : T.den d) : Any U d :=
  ⟨some ⟨T, data⟩⟩

/-! ## `Semaphore` (threadpool.h, lines 65-102) -/

/-- The outcome of a call that may suspend the calling thread: it returns, or it
stays blocked for as long as the state it waits on is the given one. -/
inductive Blocking (α : Type) where
  | done (a : α) : Blocking α
  | blocked : Blocking α

/-- `class Semaphore`: the flag `isExit` and the permit count `resLimit_`
(the mutex and the condition variable carry no data). -/
structure Semaphore where
  isExit : Bool
  resLimit_ : Int
  deriving DecidableEq, Repr

/-- `Semaphore(int limit = 0) : resLimit_(limit), isExit(false)`. -/
def Semaphore.new (limit : Int) : Semaphore := ⟨false, limit⟩

/-- `Semaphore::wait`: `if(!isExit) return;` comes first; past it the caller
waits for `resLimit_ > 0` and then takes one permit. -/
def Semaphore.wait (s : Semaphore) : Blocking Semaphore :=
  if !s.isExit then Blocking.done s
  else if s.resLimit_ > 0 then Blocking.done { s with resLimit_ := s.resLimit_ - 1 }
  else Blocking.blocked

/-- `Semaphore::post`: `if(!isExit) return;` comes first; past it one permit is
added. -/
def Semaphore.post (s : Semaphore) : Semaphore :=
  if !s.isExit then s else { s with resLimit_ := s.resLimit_ + 1 }

/-! ## `Result` and `Task` (threadpool.h 106-133, threadpool.cc 240-278) -/

/-- `class Result`, with tasks of type `τ`: the stored value, the semaphore, the
task it belongs to and the validity flag. -/
structure Result (U : Type) (d : U → Type) (τ : Type) where
  any_ : Any U d
  sem_ : Semaphore
  task_ : τ
  isVaild_ : Bool

/-- `Result::Result(task, isValid)`: `any_` and `sem_` are default-constructed.
The pointer that `task->setResult(this)` stores in the task is not part of the
state: `Task.exec` is handed the result the task is bound to. -/
def Result.new {U : Type} {d : U → Type} {τ : Type} (task : τ) (isValid : Bool) :
    Result U d τ :=
  { any_ := Any.empty, sem_ := Semaphore.new 0, task_ := task, isVaild_ := isValid }

/-- `Result::get`: an invalid result returns `Any("")` at once; a valid one
calls `sem_.wait()` and then returns `std::move(any_)`, which leaves the
`unique_ptr` inside `any_` null. -/
def Result.get {U : Type} {d : U → Type} {τ : Type} (r : Result U d τ) :
    Blocking (Any U d × Result U d τ) :=
  if !r.isVaild_ then Blocking.done (Any.of TypeTag.constCharPtr "", r)
  else
    match r.sem_.wait with
    | Blocking.blocked => Blocking.blocked
    | Blocking.done s => Blocking.done (r.any_, { r with any_ := Any.empty, sem_ := s })

/-- `Result::setVal`: `any_ = std::move(any); sem_.post();`. -/
def Result.setVal {U : Type} {d : U → Type} {τ : Type} (r : Result U d τ) (any : Any U d) :
    Result U d τ :=
  { r with any_ := any, sem_ := r.sem_.post }

/-- `class Task`: the value its overridden `run()` produces. -/
structure Task (U : Type) (d : U → Type) where
  run : Any U d

/-- `Task::exec`: `result_->setVal(run())`, on the result the task is bound to. -/
def Task.exec {U : Type} {d : U → Type} {τ : Type} (t : Task U d) (result_ : Result U d τ) :
    Result U d τ :=
  result_.setVal t.run

/-! ## `Thread` and the worker collection (threadpool.h 142-160, threadpool.cc 218-237) -/

/-- `enum class PoolMode`. -/
inductive PoolMode where
  | MODE_FIXED : PoolMode
  | MODE_CACHED : PoolMode
  deriving DecidableEq, Repr

/-- `class Thread`: the id taken from the counter at construction (the thread
function is always the pool's `threadFunc`). -/
structure Thread where
  threadID_ : Int
  deriving DecidableEq, Repr

/-- `unordered_map::find`: the worker stored under key `k`, if any. -/
def umap_find (m : List (Int × Thread)) (k : Int) : Option Thread :=
  (m.find? (fun e => e.1 == k)).map (fun e => e.2)

/-- `unordered_map::emplace`: nothing is inserted when the key is present. -/
def umap_emplace (m : List (Int × Thread)) (k : Int) (v : Thread) : List (Int × Thread) :=
  match umap_find m k with
  | some _ => m
  | none => m ++ [(k, v)]

/-- `unordered_map::erase(key)`. -/
def umap_erase (m : List (Int × Thread)) (k : Int) : List (Int × Thread) :=
  m.filter (fun e => !(e.1 == k))

/-! ## `ThreadPool` (threadpool.h 163-216, threadpool.cc 8-215) -/

/-- The data members of `class ThreadPool`, with tasks of type `τ`.  `threads_`
lists the entries of the `unordered_map` (owning pointers, never null),
`taskQueue_` lists the queue from front to back. -/
structure ThreadPool (τ : Type) where
  threads_ : List (Int × Thread)
  initThreadSize_ : Nat
  curThreadSize_ : Int
  threadSizeThreshold_ : Int
  idleThreadSize_ : Int
  taskQueue_ : List τ
  taskSize_ : Nat
  taskSizeThreadHold_ : Int
  poolmode_ : PoolMode
  isPoolRunning_ : Bool

/-- `TASK_MAX_THRESHHOLD = INT32_MAX`. -/
def TASK_MAX_THRESHHOLD : Int := 2 ^ 31 - 1

/-- `THREAD_MAX_THRESHHOLD = 10`. -/
def THREAD_MAX_THRESHHOLD : Int := 10

/-- `ThreadPool::ThreadPool()`.  The initialiser list does not mention
`taskSize_`; `taskSize0` is the value that the `std::atomic_uint` starts with. -/
def ThreadPool.new {τ : Type} (taskSize0 : Nat) : ThreadPool τ :=
  { threads_ := []
    initThreadSize_ := 0
    curThreadSize_ := 0
    threadSizeThreshold_ := THREAD_MAX_THRESHHOLD
    idleThreadSize_ := 0
    taskQueue_ := []
    taskSize_ := taskSize0 % 2 ^ 32
    taskSizeThreadHold_ := TASK_MAX_THRESHHOLD
    poolmode_ := PoolMode.MODE_FIXED
    isPoolRunning_ := false }

/-- `ThreadPool::checkRunningState`. -/
def ThreadPool.checkRunningState {τ : Type} (p : ThreadPool τ) : Bool := p.isPoolRunning_

/-- `ThreadPool::setMode`. -/
def ThreadPool.setMode {τ : Type} (p : ThreadPool τ) (mode : PoolMode) : ThreadPool τ :=
  if p.checkRunningState then p else { p with poolmode_ := mode }

/-- `ThreadPool::setTaskQueMaxThreshold`. -/
def ThreadPool.setTaskQueMaxThreshold {τ : Type} (p : ThreadPool τ) (threshold : Int) :
    ThreadPool τ :=
  if p.checkRunningState then p else { p with taskSizeThreadHold_ := threshold }

/-- `ThreadPool::setThreadSizeThreshHold`. -/
def ThreadPool.setThreadSizeThreshHold {τ : Type} (p : ThreadPool τ) (threshold : Int) :
    ThreadPool τ :=
  if p.checkRunningState then p
  else if p.poolmode_ = PoolMode.MODE_CACHED then { p with threadSizeThreshold_ := threshold }
  else p

/-- A pool inside its process: `generateID_` is the static counter that every
`Thread` constructor reads and advances, `spawned` records, in order, the id
handed to each `std::thread` that a `Thread::start()` has created. -/
structure Process (τ : Type) where
  pool : ThreadPool τ
  generateID_ : Int
  spawned : List Int

/-- `condition_variable::wait_for(lock, d, pred)`, which the standard defines as
`while (!pred()) if (wait_until(lock, t) == timeout) return pred(); return true;`.
Each element of `wakes` is one return of `wait_until`: the state found on
re-acquiring the lock and whether that return was the timeout.  When no wake-up
is listed nobody touches the state and the timeout is what ends the wait.
The result is the state in which the wait ends and the value returned. -/
def wait_for {σ : Type} (pred : σ → Bool) : σ → List (σ × Bool) → σ × Bool
  | s, [] => (s, pred s)
  | s, (s1, timedOut) :: rest =>
    if pred s then (s, true)
    else if timedOut then (s1, pred s1)
    else wait_for pred s1 rest

/-- The predicate that `submitTask` passes to `wait_for`:
`taskQueue_.size() == taskSizeThreadHold_`, a `size_t` against an `int`. -/
def submitPred {τ : Type} (w : Process τ) : Bool :=
  decide (w.pool.taskQueue_.length = toSizeT w.pool.taskSizeThreadHold_)

/-- The test that guards the creation of a worker in `submitTask`:
`poolmode_ == MODE_CACHED && taskSize_ > idleThreadSize_
 && curThreadSize_ > threadSizeThreshold_` (an `unsigned` against an `int`, then
two `int`s). -/
def growTest {τ : Type} (p : ThreadPool τ) : Bool :=
  decide (p.poolmode_ = PoolMode.MODE_CACHED)
    && decide (p.taskSize_ > toUInt p.idleThreadSize_)
    && decide (p.curThreadSize_ > p.threadSizeThreshold_)

/-- `Thread::start()` on `threads_[key]`, for a key that is present: a
`std::thread` running the thread function with the worker's id is created. -/
def launch (spawned : List Int) (threads : List (Int × Thread)) (key : Int) : List Int :=
  match umap_find threads key with
  | some th => spawned ++ [th.threadID_]
  | none => spawned

/-- The part of `ThreadPool::submitTask(sp)` that runs under the lock.  `w` is
the state when the lock is taken and `wakes` the wake-ups of the bounded wait;
the result is the state when the lock is released and the validity flag of the
`Result` that is returned (`Result(sp, false)` after a timeout, else
`Result(sp)`). -/
def submitTask_locked {τ : Type}
    (w : Process τ) (wakes : List (Process τ × Bool)) (sp : τ) : Process τ × Bool :=
  let waited := wait_for submitPred w wakes
  if !waited.2 then (waited.1, false)
  else
    let w1 := waited.1
    let p1 : ThreadPool τ :=
      { w1.pool with
        taskQueue_ := w1.pool.taskQueue_ ++ [sp]
        taskSize_ := (w1.pool.taskSize_ + 1) % 2 ^ 32 }
    if growTest p1 then
      let threadID := w1.generateID_
      let threads := umap_emplace p1.threads_ threadID ⟨threadID⟩
      ({ pool :=
           { p1 with
             threads_ := threads
             curThreadSize_ := wrapInt (p1.curThreadSize_ + 1)
             idleThreadSize_ := wrapInt (p1.idleThreadSize_ + 1) }
         generateID_ := threadID + 1
         spawned := launch w1.spawned threads threadID },
       true)
    else ({ w1 with pool := p1 }, true)

/-- `ThreadPool::submitTask(sp)`: the new state and the `Result` handed to the
caller. -/
def submitTask (U : Type) (d : U → Type) {τ : Type}
    (w : Process τ) (wakes : List (Process τ × Bool)) (sp : τ) :
    Process τ × Result U d τ :=
  let r := submitTask_locked w wakes sp
  (r.1, Result.new sp r.2)

/-- The first loop of `ThreadPool::start`, `k` iterations: construct a `Thread`
(taking the next id) and `emplace` it under its id. -/
def start_create {τ : Type} : Nat → Process τ → Process τ
  | 0, w => w
  | k + 1, w =>
    start_create k
      { w with
        pool := { w.pool with
                  threads_ := umap_emplace w.pool.threads_ w.generateID_ ⟨w.generateID_⟩ }
        generateID_ := w.generateID_ + 1 }

/-- The second loop of `ThreadPool::start`, `k` iterations from index `i`:
`threads_[i]->start(); idleThreadSize_++`.  When no worker is stored under `i`,
`operator[]` inserts a null pointer and `->start()` dereferences it: the
behaviour is undefined and the result is `none`. -/
def start_launch {τ : Type} : Nat → Int → Process τ → Option (Process τ)
  | 0, _, w => some w
  | k + 1, i, w =>
    match umap_find w.pool.threads_ i with
    | none => none
    | some th =>
      start_launch k (i + 1)
        { w with
          pool := { w.pool with idleThreadSize_ := wrapInt (w.pool.idleThreadSize_ + 1) }
          spawned := w.spawned ++ [th.threadID_] }

/-- `ThreadPool::start(initThreadSize)`. -/
def start {τ : Type} (w : Process τ) (initThreadSize : Int) : Option (Process τ) :=
  let p : ThreadPool τ :=
    { w.pool with
      isPoolRunning_ := true
      initThreadSize_ := toSizeT initThreadSize
      curThreadSize_ := initThreadSize }
  start_launch initThreadSize.toNat 0 (start_create initThreadSize.toNat { w with pool := p })

/-- Where a worker stands in `ThreadPool::threadFunc`: about to evaluate
`while (taskQueue_.size() == 0)` with the lock held, inside the timed wait of
the cached branch, inside the untimed wait of the fixed branch, holding a
dequeued task that it has yet to finish, or returned. -/
inductive WorkerAt (τ : Type) where
  | loopTest : WorkerAt τ
  | waitCached : WorkerAt τ
  | waitFixed : WorkerAt τ
  | running (task : τ) : WorkerAt τ
  | exited : WorkerAt τ

/-- How a wait on `notEmpty_` ended; for a timeout, `dur` is the number of whole
seconds between `lastTime` and the clock reading taken after it. -/
inductive WaitEnd where
  | notified : WaitEnd
  | timeout (dur : Int) : WaitEnd

/-- One atomic piece of `ThreadPool::threadFunc(threadID)`, run from where the
worker stands.
* `loopTest`: the loop test; on an empty queue the exit check on
  `isPoolRunning_` and then the choice of the wait, otherwise lines 189-193:
  `idleThreadSize_--`, `front`, `pop`, `taskSize_--`.
* `waitCached`: the wait returns; after a timeout with `dur >= 60` and
  `curThreadSize_ > initThreadSize_` (an `int` against a `size_t`) the worker
  erases itself, decrements both counts and returns.
* `waitFixed`: the wait returns.
* `running`: the task has been executed; `idleThreadSize_++`. -/
def threadFunc {τ : Type} (threadID : Int) (p : ThreadPool τ) (at_ : WorkerAt τ)
    (e : WaitEnd) : ThreadPool τ × WorkerAt τ :=
  match at_ with
  | WorkerAt.loopTest =>
    match p.taskQueue_ with
    | [] =>
      if !p.isPoolRunning_ then
        ({ p with threads_ := umap_erase p.threads_ threadID }, WorkerAt.exited)
      else if p.poolmode_ = PoolMode.MODE_CACHED then (p, WorkerAt.waitCached)
      else (p, WorkerAt.waitFixed)
    | task :: rest =>
      ({ p with
         idleThreadSize_ := wrapInt (p.idleThreadSize_ - 1)
         taskQueue_ := rest
         taskSize_ := (p.taskSize_ + 2 ^ 32 - 1) % 2 ^ 32 },
       WorkerAt.running task)
  | WorkerAt.waitCached =>
    match e with
    | WaitEnd.notified => (p, WorkerAt.loopTest)
    | WaitEnd.timeout dur =>
      if dur ≥ 60 ∧ toSizeT p.curThreadSize_ > p.initThreadSize_ then
        ({ p with
           threads_ := umap_erase p.threads_ threadID
           curThreadSize_ := wrapInt (p.curThreadSize_ - 1)
           idleThreadSize_ := wrapInt (p.idleThreadSize_ - 1) },
         WorkerAt.exited)
      else (p, WorkerAt.loopTest)
  | WorkerAt.waitFixed => (p, WorkerAt.loopTest)
  | WorkerAt.running _ =>
    ({ p with idleThreadSize_ := wrapInt (p.idleThreadSize_ + 1) }, WorkerAt.loopTest)
  | WorkerAt.exited => (p, WorkerAt.exited)

/-- What can happen to a running pool: a call of `submitTask`, or one atomic
piece of `threadFunc` by the worker `threadID` standing at `at_`. -/
inductive Event (τ : Type) where
  | submit (sp : τ) : Event τ
  | worker (threadID : Int) (at_ : WorkerAt τ) (e : WaitEnd) : Event τ

/-- The state of a trace: the process, the tasks accepted by `submitTask` so far
and the tasks dequeued so far, both oldest first. -/
structure Trace (τ : Type) where
  proc : Process τ
  accepted : List τ
  dequeued : List τ

/-- One event.  A `submit` is taken at the moment its bounded wait ends (what
happened during the wait is made of earlier events); it is accepted when the
returned `Result` is valid. -/
def step {τ : Type} (t : Trace τ) : Event τ → Trace τ
  | Event.submit sp =>
    let r := submitTask_locked t.proc [] sp
    { t with proc := r.1, accepted := if r.2 then t.accepted ++ [sp] else t.accepted }
  | Event.worker threadID at_ e =>
    let r := threadFunc threadID t.proc.pool at_ e
    { t with
      proc := { t.proc with pool := r.1 }
      dequeued :=
        match at_, r.2 with
        | WorkerAt.loopTest, WorkerAt.running task => t.dequeued ++ [task]
        | _, _ => t.dequeued }

/-- A sequence of events. -/
def run {τ : Type} (t : Trace τ) (events : List (Event τ)) : Trace τ :=
  events.foldl step t


/-! ## Concrete inputs -/

/-- Two caller types for concrete inputs: `int` and `bool`. -/
inductive ExTy where
  | int : ExTy
  | bool : ExTy
  deriving DecidableEq

/-- The values of the two caller types. -/
def ExTy.den : ExTy → Type
  | ExTy.int => Int
  | ExTy.bool => Bool

/-- A process whose id counter stands at `gen` and in which
`ThreadPool pool; pool.setMode(mode); pool.setTaskQueMaxThreshold(cap);
pool.setThreadSizeThreshHold(thr);` has run (tasks are numbered). -/
def configured (mode : PoolMode) (cap thr : Int) (gen : Int) : Process Nat :=
  { pool := (((ThreadPool.new 0).setMode mode).setTaskQueMaxThreshold cap).setThreadSizeThreshHold thr
    generateID_ := gen
    spawned := [] }

/-- The process that `pool.setMode(MODE_CACHED); pool.start(4);` of `test.cc`
leaves behind when the id counter stood at 0 and the queue capacity was set
to 2. -/
def started4 : Process Nat :=
  { pool :=
      { threads_ := [(0, ⟨0⟩), (1, ⟨1⟩), (2, ⟨2⟩), (3, ⟨3⟩)]
        initThreadSize_ := 4
        curThreadSize_ := 4
        threadSizeThreshold_ := 10
        idleThreadSize_ := 4
        taskQueue_ := []
        taskSize_ := 0
        taskSizeThreadHold_ := 2
        poolmode_ := PoolMode.MODE_CACHED
        isPoolRunning_ := true }
    generateID_ := 4
    spawned := [0, 1, 2, 3] }

/-! ## `Semaphore` and `Result` -/

/-- C2, evaluated on a freshly constructed valid `Result`: the semaphore starts
with no permit, yet `get()` returns at once, before any `setVal`, with a null
`Any`; and `setVal` (also when called by `Task::exec`) stores the value but
leaves the permit count at zero. -/
theorem Result_get_before_setVal :
    (Result.new 7 true : Result ExTy ExTy.den Nat).sem_.resLimit_ = 0
      ∧ (Result.new 7 true : Result ExTy ExTy.den Nat).get
          = Blocking.done (Any.empty, Result.new 7 true)
      ∧ ((Result.new 7 true : Result ExTy ExTy.den Nat).setVal
            (Any.of (d := ExTy.den) (TypeTag.other ExTy.int) (42 : Int))).sem_.resLimit_ = 0
      ∧ ((Result.new 7 true : Result ExTy ExTy.den Nat).setVal
            (Any.of (d := ExTy.den) (TypeTag.other ExTy.int) (42 : Int))).any_
          = Any.of (d := ExTy.den) (TypeTag.other ExTy.int) (42 : Int)
      ∧ (Task.exec ⟨Any.of (d := ExTy.den) (TypeTag.other ExTy.int) (42 : Int)⟩
            (Result.new 7 true : Result ExTy ExTy.den Nat)).sem_.resLimit_ = 0 := by
  refine ⟨rfl, rfl, rfl, rfl, rfl⟩

/-- C3 as stated fails: after `setVal(42)` on a fresh valid `Result` the first
`get()` returns the `Any` holding 42 and the second `get()` returns a null
`Any`, which is not the value of the first. -/
theorem Result_get_twice_counterexample :
    ∃ (a1 a2 : Any ExTy ExTy.den) (r1 r2 : Result ExTy ExTy.den Nat),
      ((Result.new 7 true : Result ExTy ExTy.den Nat).setVal
          (Any.of (d := ExTy.den) (TypeTag.other ExTy.int) (42 : Int))).get
            = Blocking.done (a1, r1)
        ∧ r1.get = Blocking.done (a2, r2)
        ∧ a1 = Any.of (d := ExTy.den) (TypeTag.other ExTy.int) (42 : Int)
        ∧ a2 = Any.empty
        ∧ a2 ≠ a1 := by
  refine ⟨Any.of (d := ExTy.den) (TypeTag.other ExTy.int) (42 : Int), Any.empty,
    { any_ := Any.empty, sem_ := Semaphore.new 0, task_ := 7, isVaild_ := true },
    { any_ := Any.empty, sem_ := Semaphore.new 0, task_ := 7, isVaild_ := true },
    rfl, rfl, rfl, rfl, ?_⟩
  simp [Any.of, Any.empty]

/-- C3, amended: for a valid `Result` into which `v` has been published by
`setVal`, a `get()` that returns yields `v` and moves it out, leaving the stored
value null; a second `get()` in a row that returns yields the null `Any`, and
leaves the stored value null again. -/
theorem Result_get_moves_value {U : Type} {d : U → Type} {τ : Type}
    (r : Result U d τ) (v : Any U d) (hvalid : r.isVaild_ = true) :
    ∀ a r1, (r.setVal v).get = Blocking.done (a, r1) →
      a = v ∧ r1.any_ = Any.empty
        ∧ ∀ a2 r2, r1.get = Blocking.done (a2, r2) →
            a2 = Any.empty ∧ r2.any_ = Any.empty := by
  intro a r1 h
  have hget : (r.setVal v).isVaild_ = true := hvalid
  unfold Result.get at h
  simp only [hget, Bool.not_true, Bool.false_eq_true, if_false] at h
  cases hw : (r.setVal v).sem_.wait with
  | blocked => simp [hw] at h
  | done s =>
    simp only [hw, Blocking.done.injEq, Prod.mk.injEq] at h
    obtain ⟨ha, hr⟩ := h
    subst hr
    refine ⟨ha.symm, rfl, ?_⟩
    intro a2 r2 h2
    unfold Result.get at h2
    simp only [hget, Bool.not_true, Bool.false_eq_true, if_false] at h2
    cases hw2 : s.wait with
    | blocked => simp [hw2] at h2
    | done s2 =>
      simp only [hw2, Blocking.done.injEq, Prod.mk.injEq] at h2
      obtain ⟨ha2, hr2⟩ := h2
      subst hr2
      exact ⟨ha2.symm, rfl⟩

/-- The amended C3 at a fresh valid `Result` and the value 42: the hypotheses
hold there (the `Result` is valid, `get()` after `setVal(42)` returns and so
does a second `get()`), and the values are 42 and then the null `Any`. -/
theorem Result_get_moves_value_witness :
    (Result.new 7 true : Result ExTy ExTy.den Nat).isVaild_ = true
      ∧ ((Result.new 7 true : Result ExTy ExTy.den Nat).setVal
            (Any.of (d := ExTy.den) (TypeTag.other ExTy.int) (42 : Int))).get
          = Blocking.done (Any.of (d := ExTy.den) (TypeTag.other ExTy.int) (42 : Int),
              Result.new 7 true)
      ∧ (Result.new 7 true : Result ExTy ExTy.den Nat).get
          = Blocking.done (Any.empty, Result.new 7 true)
      ∧ (Any.of (d := ExTy.den) (TypeTag.other ExTy.int) (42 : Int)
            = Any.of (d := ExTy.den) (TypeTag.other ExTy.int) (42 : Int)
          ∧ (Result.new 7 true : Result ExTy ExTy.den Nat).any_ = Any.empty
          ∧ ∀ (a2 : Any ExTy ExTy.den) (r2 : Result ExTy ExTy.den Nat),
              (Result.new 7 true : Result ExTy ExTy.den Nat).get = Blocking.done (a2, r2) →
                a2 = Any.empty ∧ r2.any_ = Any.empty) :=
  ⟨rfl, rfl, rfl,
   Result_get_moves_value (Result.new 7 true)
     (Any.of (d := ExTy.den) (TypeTag.other ExTy.int) (42 : Int)) rfl
     (Any.of (d := ExTy.den) (TypeTag.other ExTy.int) (42 : Int)) (Result.new 7 true) rfl⟩

/-! ## Configuration -/

/-- C9: on a pool whose running flag is set, `setMode`,
`setTaskQueMaxThreshold` and `setThreadSizeThreshHold` return the pool as it
was, whatever the argument. -/
theorem setters_ignored_when_running {τ : Type} (p : ThreadPool τ)
    (hrun : p.isPoolRunning_ = true) (mode : PoolMode) (threshold : Int) :
    p.setMode mode = p
      ∧ p.setTaskQueMaxThreshold threshold = p
      ∧ p.setThreadSizeThreshHold threshold = p := by
  simp [ThreadPool.setMode, ThreadPool.setTaskQueMaxThreshold,
    ThreadPool.setThreadSizeThreshHold, ThreadPool.checkRunningState, hrun]

/-- A running pool in fixed mode ignores `setMode(MODE_CACHED)` and a new
threshold 3. -/
theorem setters_ignored_when_running_witness :
    ({ (ThreadPool.new 0 : ThreadPool Nat) with isPoolRunning_ := true }).isPoolRunning_ = true
      ∧ ({ (ThreadPool.new 0 : ThreadPool Nat) with isPoolRunning_ := true }).setMode
            PoolMode.MODE_CACHED
          = { (ThreadPool.new 0 : ThreadPool Nat) with isPoolRunning_ := true }
      ∧ ({ (ThreadPool.new 0 : ThreadPool Nat) with
            isPoolRunning_ := true }).setTaskQueMaxThreshold 3
          = { (ThreadPool.new 0 : ThreadPool Nat) with isPoolRunning_ := true }
      ∧ ({ (ThreadPool.new 0 : ThreadPool Nat) with
            isPoolRunning_ := true }).setThreadSizeThreshHold 3
          = { (ThreadPool.new 0 : ThreadPool Nat) with isPoolRunning_ := true } :=
  ⟨rfl, setters_ignored_when_running
    { (ThreadPool.new 0 : ThreadPool Nat) with isPoolRunning_ := true } rfl
    PoolMode.MODE_CACHED 3⟩


/-! ## `submitTask` -/

/-- With no wake-up listed the bounded wait ends in the state it started in. -/
theorem wait_for_nil {σ : Type} (pred : σ → Bool) (s : σ) :
    wait_for pred s [] = (s, pred s) := rfl

/-- The value returned by `wait_for` is the predicate's value in the state in
which the wait ends. -/
theorem wait_for_snd {σ : Type} (pred : σ → Bool) (s : σ) (wakes : List (σ × Bool)) :
    (wait_for pred s wakes).2 = pred (wait_for pred s wakes).1 := by
  induction wakes generalizing s with
  | nil => rfl
  | cons e rest ih =>
    obtain ⟨s1, timedOut⟩ := e
    by_cases hp : pred s = true
    · simp [wait_for, hp]
    · by_cases ht : timedOut = true
      · simp [wait_for, hp, ht]
      · simp [wait_for, hp, ht, ih]

/-- C1, on the code: the `Result` of `submitTask` is valid exactly when, as
the bounded wait ends, the queue length EQUALS `taskSizeThreadHold_`.  On a
started pool of capacity 2 with an empty queue the submission is refused and
the queue stays empty, although 0 tasks are fewer than 2; on a started pool of
capacity 0 with an empty queue (a queue already at capacity) the submission is
accepted and the queue then holds 1 task, more than the capacity. -/
theorem submitTask_accepts_only_at_capacity :
    (∀ (U : Type) (d : U → Type) (τ : Type) (w : Process τ)
        (wakes : List (Process τ × Bool)) (sp : τ),
        (submitTask U d w wakes sp).2.isVaild_ = true
          ↔ (wait_for submitPred w wakes).1.pool.taskQueue_.length
              = toSizeT (wait_for submitPred w wakes).1.pool.taskSizeThreadHold_)
    ∧ (start (configured PoolMode.MODE_FIXED 2 10 0) 1).map
        (fun w =>
          ((submitTask ExTy ExTy.den w [] 7).2.isVaild_,
           (submitTask ExTy ExTy.den w [] 7).1.pool.taskQueue_,
           (submitTask ExTy ExTy.den w [] 7).1.pool.taskSizeThreadHold_))
      = some (false, [], 2)
    ∧ (start (configured PoolMode.MODE_FIXED 0 10 0) 1).map
        (fun w =>
          ((submitTask ExTy ExTy.den w [] 7).2.isVaild_,
           (submitTask ExTy ExTy.den w [] 7).1.pool.taskQueue_,
           (submitTask ExTy ExTy.den w [] 7).1.pool.taskSizeThreadHold_))
      = some (true, [7], 0) := by
  refine ⟨?_, by decide, by decide⟩
  intro U d τ w wakes sp
  have hs := wait_for_snd submitPred w wakes
  have hv : (submitTask U d w wakes sp).2.isVaild_
      = (wait_for submitPred w wakes).2 := by
    cases hb : (wait_for submitPred w wakes).2 with
    | false => simp [submitTask, submitTask_locked, hb, Result.new]
    | true =>
      simp only [submitTask, submitTask_locked, hb, Result.new, Bool.not_true,
        Bool.false_eq_true, if_false]
      split <;> rfl
  rw [hv, hs]
  simp [submitPred]

/-- C7: when the bounded wait of `submitTask` ends in a timeout (`wait_for`
returns false), the process is left exactly as the wait found it (queue,
`taskSize_`, `threads_` and the worker counts included; it is the entry state
when no other thread ran meanwhile), the returned `Result` is invalid, and
`get()` on it returns `Any("")` without blocking, whatever its semaphore and
stored value are. -/
theorem submitTask_rejected (U : Type) (d : U → Type) {τ : Type}
    (w : Process τ) (wakes : List (Process τ × Bool)) (sp : τ)
    (htimeout : (wait_for submitPred w wakes).2 = false) :
    (submitTask U d w wakes sp).1 = (wait_for submitPred w wakes).1
      ∧ (wakes = [] → (submitTask U d w wakes sp).1 = w)
      ∧ (submitTask U d w wakes sp).2.isVaild_ = false
      ∧ ∀ (s : Semaphore) (any : Any U d),
          ({ (submitTask U d w wakes sp).2 with sem_ := s, any_ := any }).get
            = Blocking.done
                (Any.of TypeTag.constCharPtr "",
                 { (submitTask U d w wakes sp).2 with sem_ := s, any_ := any }) := by
  have h1 : submitTask_locked w wakes sp = ((wait_for submitPred w wakes).1, false) := by
    simp [submitTask_locked, htimeout]
  refine ⟨?_, ?_, ?_, ?_⟩
  · simp [submitTask, h1]
  · intro hnil
    subst hnil
    simp [submitTask, h1, wait_for]
  · simp [submitTask, h1, Result.new]
  · intro s any
    simp [submitTask, h1, Result.new, Result.get]

/-- A submission to a started pool of capacity 2 with an empty queue times
out. -/
theorem submitTask_rejected_witness :
    (wait_for submitPred { configured PoolMode.MODE_FIXED 2 10 0 with
        pool := { (configured PoolMode.MODE_FIXED 2 10 0).pool with isPoolRunning_ := true } }
        []).2 = false
      ∧ (submitTask ExTy ExTy.den { configured PoolMode.MODE_FIXED 2 10 0 with
          pool := { (configured PoolMode.MODE_FIXED 2 10 0).pool with isPoolRunning_ := true } }
          [] 7).2.isVaild_ = false :=
  ⟨by decide,
   (submitTask_rejected ExTy ExTy.den { configured PoolMode.MODE_FIXED 2 10 0 with
      pool := { (configured PoolMode.MODE_FIXED 2 10 0).pool with isPoolRunning_ := true } }
      [] 7 (by decide)).2.2.1⟩

/-- C4, evaluated in cached mode with capacity 0, maximum 10 and one worker:
task 1 is accepted, the worker dequeues it, task 2 is accepted.  After that one
task is pending, no worker is idle and the worker count 1 is below 10, yet the
last `submitTask` has added no worker.  With the maximum set to 0 instead, the
same submission adds a worker although the count 1 is above the maximum. -/
theorem submitTask_growth_inverted :
    (start (configured PoolMode.MODE_CACHED 0 10 0) 1).map
        (fun w =>
          let t := run ⟨w, [], []⟩
            [Event.submit 1, Event.worker 0 WorkerAt.loopTest WaitEnd.notified, Event.submit 2]
          (t.accepted, t.proc.pool.taskSize_, t.proc.pool.idleThreadSize_,
           t.proc.pool.curThreadSize_, t.proc.pool.threadSizeThreshold_,
           t.proc.pool.threads_, t.proc.spawned))
      = some (([1, 2] : List Nat), (1 : Nat), (0 : Int), (1 : Int), (10 : Int),
          ([(0, ⟨0⟩)] : List (Int × Thread)), ([0] : List Int))
    ∧ (start (configured PoolMode.MODE_CACHED 0 0 0) 1).map
        (fun w =>
          let t := run ⟨w, [], []⟩
            [Event.submit 1, Event.worker 0 WorkerAt.loopTest WaitEnd.notified, Event.submit 2]
          (t.accepted, t.proc.pool.taskSize_, t.proc.pool.idleThreadSize_,
           t.proc.pool.curThreadSize_, t.proc.pool.threadSizeThreshold_,
           t.proc.pool.threads_, t.proc.spawned))
      = some (([1, 2] : List Nat), (1 : Nat), (1 : Int), (2 : Int), (0 : Int),
          ([(0, ⟨0⟩), (1, ⟨1⟩)] : List (Int × Thread)), ([0, 1] : List Int)) := by
  constructor <;> rfl

/-! ## `start` -/

/-- C8, evaluated: when one `Thread` was constructed earlier in the process
(the id counter stands at 1), `start(1)` on a fresh pool creates worker 1 and
then looks for a worker under key 0, finds none and dereferences a null
pointer; with the counter at 0 the same call launches worker 0 and sets the
three counts to 1. -/
theorem start_uses_loop_index_as_key :
    (start_create 1 (configured PoolMode.MODE_FIXED 2 10 1)).pool.threads_ = [(1, ⟨1⟩)]
      ∧ (start (configured PoolMode.MODE_FIXED 2 10 1) 1).isNone = true
      ∧ (start (configured PoolMode.MODE_FIXED 2 10 0) 1).map
          (fun w => (w.pool.isPoolRunning_, w.pool.threads_, w.spawned,
            w.pool.initThreadSize_, w.pool.curThreadSize_, w.pool.idleThreadSize_))
        = some (true, ([(0, ⟨0⟩)] : List (Int × Thread)), ([0] : List Int),
            (1 : Nat), (1 : Int), (1 : Int)) := by
  refine ⟨by decide, by decide, rfl⟩


/-! ## FIFO order of the task queue -/

/-- A `submitTask` taken when its wait ends either leaves the queue alone and
is refused, or appends the task at the back and is accepted. -/
theorem submitTask_locked_queue {τ : Type} (w : Process τ) (sp : τ) :
    ((submitTask_locked w [] sp).2 = false
        ∧ (submitTask_locked w [] sp).1.pool.taskQueue_ = w.pool.taskQueue_)
      ∨ ((submitTask_locked w [] sp).2 = true
        ∧ (submitTask_locked w [] sp).1.pool.taskQueue_ = w.pool.taskQueue_ ++ [sp]) := by
  by_cases hp : submitPred w = true
  · right
    simp only [submitTask_locked, wait_for_nil, hp, Bool.not_true, Bool.false_eq_true, if_false]
    split <;> exact ⟨rfl, rfl⟩
  · left
    simp [submitTask_locked, wait_for, hp]

/-- One event keeps `q0 ++ accepted = dequeued ++ taskQueue_`. -/
theorem step_fifo {τ : Type} (q0 : List τ) (t : Trace τ) (ev : Event τ)
    (h : q0 ++ t.accepted = t.dequeued ++ t.proc.pool.taskQueue_) :
    q0 ++ (step t ev).accepted = (step t ev).dequeued ++ (step t ev).proc.pool.taskQueue_ := by
  cases ev with
  | submit sp =>
    rcases submitTask_locked_queue t.proc sp with ⟨h2, hq⟩ | ⟨h2, hq⟩
    · simp [step, h2, hq, h]
    · simp only [step, h2, hq, if_true]
      rw [← List.append_assoc, h, List.append_assoc]
  | worker threadID at_ e =>
    cases at_ with
    | loopTest =>
      cases hq : t.proc.pool.taskQueue_ with
      | nil =>
        rw [hq] at h
        by_cases hr : t.proc.pool.isPoolRunning_ = true
        · by_cases hm : t.proc.pool.poolmode_ = PoolMode.MODE_CACHED
          · simp [step, threadFunc, hq, hr, hm, h]
          · simp [step, threadFunc, hq, hr, hm, h]
        · simp [step, threadFunc, hq, hr, h]
      | cons task rest =>
        rw [hq] at h
        simp [step, threadFunc, hq, h]
    | waitCached =>
      cases e with
      | notified => simpa [step, threadFunc] using h
      | timeout dur =>
        by_cases hc : dur ≥ 60 ∧ toSizeT t.proc.pool.curThreadSize_ > t.proc.pool.initThreadSize_
        · simpa [step, threadFunc, hc] using h
        · simpa [step, threadFunc, hc] using h
    | waitFixed => simpa [step, threadFunc] using h
    | running task => simpa [step, threadFunc] using h
    | exited => simpa [step, threadFunc] using h

/-- A sequence of events keeps `q0 ++ accepted = dequeued ++ taskQueue_`. -/
theorem run_fifo {τ : Type} (q0 : List τ) (events : List (Event τ)) (t : Trace τ)
    (h : q0 ++ t.accepted = t.dequeued ++ t.proc.pool.taskQueue_) :
    q0 ++ (run t events).accepted
      = (run t events).dequeued ++ (run t events).proc.pool.taskQueue_ := by
  induction events generalizing t with
  | nil => simpa [run] using h
  | cons ev rest ih =>
    have := ih (step t ev) (step_fifo q0 t ev h)
    simpa [run] using this

/-- C10: a dequeue step (the loop test of `threadFunc` on a queue
`task :: rest`) hands the worker the front task, leaves `rest` as the queue and
lowers `taskSize_` by one modulo `2^32`; and along every sequence of
submissions and worker steps the tasks dequeued so far, followed by the tasks
still queued, are the initially queued tasks followed by the accepted ones in
order of acceptance.  So the dequeued tasks are a prefix of the accepted
sequence: an earlier accepted task leaves first, and each accepted submission
leaves at most once. -/
theorem dequeue_is_fifo {τ : Type} :
    (∀ (threadID : Int) (p : ThreadPool τ) (task : τ) (rest : List τ) (e : WaitEnd),
        (threadFunc threadID { p with taskQueue_ := task :: rest } WorkerAt.loopTest e).2
            = WorkerAt.running task
          ∧ (threadFunc threadID { p with taskQueue_ := task :: rest }
              WorkerAt.loopTest e).1.taskQueue_ = rest
          ∧ ((threadFunc threadID { p with taskQueue_ := task :: rest }
              WorkerAt.loopTest e).1.taskSize_ + 1) % 2 ^ 32 = p.taskSize_ % 2 ^ 32)
      ∧ (∀ (w : Process τ) (events : List (Event τ)),
          w.pool.taskQueue_ ++ (run ⟨w, [], []⟩ events).accepted
              = (run ⟨w, [], []⟩ events).dequeued
                  ++ (run ⟨w, [], []⟩ events).proc.pool.taskQueue_
            ∧ (run ⟨w, [], []⟩ events).dequeued
                <+: w.pool.taskQueue_ ++ (run ⟨w, [], []⟩ events).accepted) := by
  constructor
  · intro threadID p task rest e
    refine ⟨rfl, rfl, ?_⟩
    simp only [threadFunc]
    omega
  · intro w events
    have h := run_fifo w.pool.taskQueue_ events ⟨w, [], []⟩ (by simp)
    exact ⟨h, ⟨_, h.symm⟩⟩


/-! ## The worker count in cached mode -/

/-- The first loop of `start` leaves the two worker-count fields and the
maximum alone. -/
theorem start_create_counts {τ : Type} (k : Nat) (w : Process τ) :
    (start_create k w).pool.curThreadSize_ = w.pool.curThreadSize_
      ∧ (start_create k w).pool.initThreadSize_ = w.pool.initThreadSize_
      ∧ (start_create k w).pool.threadSizeThreshold_ = w.pool.threadSizeThreshold_ := by
  induction k generalizing w with
  | zero => exact ⟨rfl, rfl, rfl⟩
  | succ k ih =>
    simp only [start_create]
    exact ih _

/-- The second loop of `start`, when it completes, leaves the two worker-count
fields and the maximum alone. -/
theorem start_launch_counts {τ : Type} (k : Nat) (i : Int) (w w1 : Process τ)
    (h : start_launch k i w = some w1) :
    w1.pool.curThreadSize_ = w.pool.curThreadSize_
      ∧ w1.pool.initThreadSize_ = w.pool.initThreadSize_
      ∧ w1.pool.threadSizeThreshold_ = w.pool.threadSizeThreshold_ := by
  induction k generalizing i w with
  | zero =>
    simp only [start_launch, Option.some.injEq] at h
    subst h
    exact ⟨rfl, rfl, rfl⟩
  | succ k ih =>
    simp only [start_launch] at h
    cases hf : umap_find w.pool.threads_ i with
    | none => simp [hf] at h
    | some th =>
      simp only [hf] at h
      have h2 := ih _ _ h
      exact h2

/-- After a completed `start(n)` the current count is `n`, the initial count is
`n` converted to `size_t`, and the maximum is what it was. -/
theorem start_counts {τ : Type} (w w1 : Process τ) (n : Int) (h : start w n = some w1) :
    w1.pool.curThreadSize_ = n
      ∧ w1.pool.initThreadSize_ = toSizeT n
      ∧ w1.pool.threadSizeThreshold_ = w.pool.threadSizeThreshold_ := by
  unfold start at h
  obtain ⟨h1, h2, h3⟩ := start_launch_counts _ _ _ _ h
  obtain ⟨c1, c2, c3⟩ := start_create_counts n.toNat
    { w with pool := { w.pool with
        isPoolRunning_ := true
        initThreadSize_ := toSizeT n
        curThreadSize_ := n } }
  exact ⟨h1.trans c1, h2.trans c2, h3.trans c3⟩

/-- The growth test of `submitTask` fails while the current count is not above
the maximum. -/
theorem growTest_false_of_le {τ : Type} (p : ThreadPool τ)
    (h : p.curThreadSize_ ≤ p.threadSizeThreshold_) : growTest p = false := by
  have : ¬ p.curThreadSize_ > p.threadSizeThreshold_ := not_lt.mpr h
  simp [growTest, this]

/-- One event keeps `curThreadSize_ = n`, `initThreadSize_ = (size_t) n` and the
maximum, when `n` is not above the maximum. -/
theorem step_counts {τ : Type} (n thr : Int) (t : Trace τ) (ev : Event τ)
    (hn : n ≤ thr)
    (h : t.proc.pool.curThreadSize_ = n ∧ t.proc.pool.initThreadSize_ = toSizeT n
      ∧ t.proc.pool.threadSizeThreshold_ = thr) :
    (step t ev).proc.pool.curThreadSize_ = n
      ∧ (step t ev).proc.pool.initThreadSize_ = toSizeT n
      ∧ (step t ev).proc.pool.threadSizeThreshold_ = thr := by
  obtain ⟨hc, hi, ht⟩ := h
  cases ev with
  | submit sp =>
    by_cases hp : submitPred t.proc = true
    · have hg : growTest { t.proc.pool with
          taskQueue_ := t.proc.pool.taskQueue_ ++ [sp]
          taskSize_ := (t.proc.pool.taskSize_ + 1) % 2 ^ 32 } = false :=
        growTest_false_of_le _ (by simp only [hc, ht]; exact hn)
      simp only [step, submitTask_locked, wait_for_nil, hp, Bool.not_true, Bool.false_eq_true,
        if_false, hg]
      exact ⟨hc, hi, ht⟩
    · simp only [step, submitTask_locked, wait_for_nil, hp, Bool.not_false, if_true]
      exact ⟨hc, hi, ht⟩
  | worker threadID at_ e =>
    cases at_ with
    | loopTest =>
      cases hq : t.proc.pool.taskQueue_ with
      | nil =>
        simp only [step, threadFunc, hq]
        split
        · exact ⟨hc, hi, ht⟩
        · split <;> exact ⟨hc, hi, ht⟩
      | cons task rest =>
        simp only [step, threadFunc, hq]
        exact ⟨hc, hi, ht⟩
    | waitCached =>
      cases e with
      | notified => exact ⟨hc, hi, ht⟩
      | timeout dur =>
        have hno : ¬ (dur ≥ 60 ∧ toSizeT t.proc.pool.curThreadSize_ > t.proc.pool.initThreadSize_) := by
          rw [hc, hi]
          intro hcon
          exact lt_irrefl _ hcon.2
        simp only [step, threadFunc, hno, if_false]
        exact ⟨hc, hi, ht⟩
    | waitFixed => exact ⟨hc, hi, ht⟩
    | running task => exact ⟨hc, hi, ht⟩
    | exited => exact ⟨hc, hi, ht⟩

/-- A sequence of events keeps `curThreadSize_ = n`,
`initThreadSize_ = (size_t) n` and the maximum, when `n` is not above the
maximum. -/
theorem run_counts {τ : Type} (n thr : Int) (events : List (Event τ)) (t : Trace τ)
    (hn : n ≤ thr)
    (h : t.proc.pool.curThreadSize_ = n ∧ t.proc.pool.initThreadSize_ = toSizeT n
      ∧ t.proc.pool.threadSizeThreshold_ = thr) :
    (run t events).proc.pool.curThreadSize_ = n
      ∧ (run t events).proc.pool.initThreadSize_ = toSizeT n
      ∧ (run t events).proc.pool.threadSizeThreshold_ = thr := by
  induction events generalizing t with
  | nil => simpa [run] using h
  | cons ev rest ih =>
    have := ih (step t ev) (step_counts n thr t ev hn h)
    simpa [run] using this

/-- C5 as stated fails: in cached mode with the default maximum 10,
`start(11)` completes and leaves `curThreadSize_ = 11`, above the maximum,
before any further step. -/
theorem curThreadSize_above_maximum_counterexample :
    ∃ w1 : Process Nat,
      start (configured PoolMode.MODE_CACHED 2 10 0) 11 = some w1
        ∧ w1.pool.poolmode_ = PoolMode.MODE_CACHED
        ∧ w1.pool.threadSizeThreshold_ = 10
        ∧ ¬ ((run ⟨w1, [], []⟩ []).proc.pool.curThreadSize_
              ≤ (run ⟨w1, [], []⟩ []).proc.pool.threadSizeThreshold_) := by
  refine ⟨_, rfl, ?_, ?_, ?_⟩ <;> decide

/-- C5, amended: when `start(n)` is called with `n` not above the configured
maximum `threadSizeThreshold_` and completes, then after every sequence of
submissions and worker steps (dequeues, completions, returns from the timed
wait with any idle duration) the current worker count is at least `n` and at
most the maximum, which is still the configured one. -/
theorem curThreadSize_within_bounds {τ : Type} (w0 w1 : Process τ) (n : Int)
    (events : List (Event τ))
    (hn : n ≤ w0.pool.threadSizeThreshold_)
    (hstart : start w0 n = some w1) :
    n ≤ (run ⟨w1, [], []⟩ events).proc.pool.curThreadSize_
      ∧ (run ⟨w1, [], []⟩ events).proc.pool.curThreadSize_
          ≤ (run ⟨w1, [], []⟩ events).proc.pool.threadSizeThreshold_
      ∧ (run ⟨w1, [], []⟩ events).proc.pool.threadSizeThreshold_
          = w0.pool.threadSizeThreshold_ := by
  obtain ⟨hc, hi, ht⟩ :=
    run_counts n w0.pool.threadSizeThreshold_ events ⟨w1, [], []⟩ hn
      (start_counts w0 w1 n hstart)
  rw [hc, ht]
  exact ⟨le_refl n, hn, rfl⟩

/-- The amended C5 on the pool of `test.cc` (cached mode, `start(4)`, maximum
10): two submissions, a dequeue attempt, a completion and a timed-out wait
after 61 idle seconds leave the worker count between 4 and 10. -/
theorem curThreadSize_within_bounds_witness :
    (4 : Int) ≤ (configured PoolMode.MODE_CACHED 2 10 0).pool.threadSizeThreshold_
      ∧ start (configured PoolMode.MODE_CACHED 2 10 0) 4 = some started4
      ∧ (4 : Int) ≤ (run ⟨started4, [], []⟩
            [Event.submit 1, Event.submit 2, Event.worker 0 WorkerAt.loopTest WaitEnd.notified,
             Event.worker 0 (WorkerAt.running 1) WaitEnd.notified,
             Event.worker 3 WorkerAt.waitCached (WaitEnd.timeout 61)]).proc.pool.curThreadSize_
      ∧ (run ⟨started4, [], []⟩
            [Event.submit 1, Event.submit 2, Event.worker 0 WorkerAt.loopTest WaitEnd.notified,
             Event.worker 0 (WorkerAt.running 1) WaitEnd.notified,
             Event.worker 3 WorkerAt.waitCached (WaitEnd.timeout 61)]).proc.pool.curThreadSize_
          ≤ 10 := by
  have h := curThreadSize_within_bounds (configured PoolMode.MODE_CACHED 2 10 0) started4 4
    [Event.submit 1, Event.submit 2, Event.worker 0 WorkerAt.loopTest WaitEnd.notified,
     Event.worker 0 (WorkerAt.running 1) WaitEnd.notified,
     Event.worker 3 WorkerAt.waitCached (WaitEnd.timeout 61)]
    (by decide) rfl
  refine ⟨by decide, rfl, h.1, ?_⟩
  have h2 := h.2.1
  rw [h.2.2] at h2
  exact h2


end ThreadPoolModel
